import Mathlib

/-!
Verification of the storage quota monitoring module
(`src/modules/storage-monitor.js`) of the insidebar-ai repository.

The module is embedded shallowly:
* JavaScript numbers that take part in percentage arithmetic are modelled
  as rationals (`ℚ`); byte counts reported by the host and estimated
  operation sizes are natural numbers.
* The asynchronous host call `navigator.storage.estimate()` is modelled by
  the `HostStorage` type: the API may be missing, the promise may reject
  (the `try/catch` in `checkStorageQuota` turns that into `null`), or the
  host reports usage and quota fields, each possibly absent (the source
  coalesces absent fields with `|| 0`).
* `null` results become `none`; functions that in JavaScript never throw
  are total Lean functions.
* The notification side effect of `showStorageWarning` is modelled by the
  message it would emit (`none` when no warning is shown).
-/

namespace StorageMonitor

/-- Warning level classification for quota usage, per the source constants
`QUOTA_THRESHOLDS` and `getQuotaLevel`. -/
inductive QuotaLevel
  | safe
  | warning
  | critical
  | danger
deriving DecidableEq, Repr

/-- Shape of the source constant object `QUOTA_THRESHOLDS`. -/
structure QuotaThresholds where
  WARNING : ℚ
  CRITICAL : ℚ
  DANGER : ℚ

/-- The source constant `QUOTA_THRESHOLDS = { WARNING: 80, CRITICAL: 90, DANGER: 95 }`. -/
def QUOTA_THRESHOLDS : QuotaThresholds :=
  { WARNING := 80, CRITICAL := 90, DANGER := 95 }

/-- Embedding of `getQuotaLevel(percentUsed)`: classifies the percentage with
the chained `>=` comparisons of the source. -/
def getQuotaLevel (percentUsed : ℚ) : QuotaLevel :=
  if percentUsed ≥ QUOTA_THRESHOLDS.DANGER then .danger
  else if percentUsed ≥ QUOTA_THRESHOLDS.CRITICAL then .critical
  else if percentUsed ≥ QUOTA_THRESHOLDS.WARNING then .warning
  else .safe

/-- Model of JavaScript `Number.prototype.toFixed`: round to `digits`
fractional digits, ties going to the larger value, and render in decimal.
Used by the source for the `usageMB`, `quotaMB` and percentage strings. -/
def toFixed (x : ℚ) (digits : Nat) : String :=
  let scaled : Int := ⌊x * (10 : ℚ) ^ digits + 1 / 2⌋
  let sign := if scaled < 0 then "-" else ""
  let s := Nat.repr scaled.natAbs
  let s := if s.length < digits + 1 then
      String.mk (List.replicate (digits + 1 - s.length) '0') ++ s
    else s
  if digits = 0 then sign ++ s
  else sign ++ s.take (s.length - digits) ++ "." ++ s.drop (s.length - digits)

/-- The record returned by `checkStorageQuota` on success: raw usage and
capacity in bytes, the derived percentage and level, and the two
preformatted megabyte strings the source also includes. -/
structure QuotaInfo where
  usage : Nat
  quota : Nat
  percentUsed : ℚ
  level : QuotaLevel
  usageMB : String
  quotaMB : String
deriving DecidableEq, Repr

/-- Outcome of asking the host for a storage estimate: the Storage API may
be unavailable, `estimate()` may reject, or it resolves with optional
`usage` and `quota` fields. -/
inductive HostStorage
  | unsupported
  | throws
  | reports (usage? : Option Nat) (quota? : Option Nat)
deriving DecidableEq, Repr

/-- Embedding of `checkStorageQuota()`. The awaited host estimate is the
argument; a missing API, a rejected promise (caught by the source's
`try/catch`) and a zero quota all yield `none` (`null` in the source). -/
def checkStorageQuota : HostStorage → Option QuotaInfo
  | .unsupported => none
  | .throws => none
  | .reports usage? quota? =>
    let usage := usage?.getD 0
    let quota := quota?.getD 0
    if quota = 0 then
      none
    else
      let percentUsed : ℚ := (usage : ℚ) / (quota : ℚ) * 100
      let level := getQuotaLevel percentUsed
      some { usage := usage
             quota := quota
             percentUsed := percentUsed
             level := level
             usageMB := toFixed ((usage : ℚ) / (1024 * 1024)) 2
             quotaMB := toFixed ((quota : ℚ) / (1024 * 1024)) 2 }

/-- Embedding of `getStorageStatusMessage(quotaInfo)`: the user-facing
status strings of the source, selected by level. -/
def getStorageStatusMessage : Option QuotaInfo → String
  | none => "Storage usage information not available"
  | some q =>
    match q.level with
    | .danger =>
      "⚠️ Storage critically full (" ++ toFixed q.percentUsed 1 ++ "%)! Using "
        ++ q.usageMB ++ "MB of " ++ q.quotaMB
        ++ "MB. Delete old data immediately to prevent save failures."
    | .critical =>
      "⚠️ Storage almost full (" ++ toFixed q.percentUsed 1 ++ "%). Using "
        ++ q.usageMB ++ "MB of " ++ q.quotaMB
        ++ "MB. Consider deleting old conversations or prompts."
    | .warning =>
      "Storage usage high (" ++ toFixed q.percentUsed 1 ++ "%). Using "
        ++ q.usageMB ++ "MB of " ++ q.quotaMB ++ "MB."
    | .safe =>
      "Storage: " ++ q.usageMB ++ "MB / " ++ q.quotaMB ++ "MB ("
        ++ toFixed q.percentUsed 1 ++ "%)"

/-- The record returned by `canPerformStorageOperation`. -/
structure OperationDecision where
  allowed : Bool
  reason : String
  quotaInfo : Option QuotaInfo
deriving DecidableEq, Repr

/-- Embedding of `canPerformStorageOperation(estimatedSize)`. The awaited
result of `checkStorageQuota()` is passed as the first argument; the body
mirrors the source: allow when quota info is unavailable, deny at danger
level, deny when a positive `estimatedSize` projects usage to 100% or
more, allow otherwise. -/
def canPerformStorageOperation (quotaInfo? : Option QuotaInfo)
    (estimatedSize : Nat) : OperationDecision :=
  match quotaInfo? with
  | none =>
    { allowed := true
      reason := "Quota information not available, proceeding"
      quotaInfo := none }
  | some quotaInfo =>
    if quotaInfo.level = .danger then
      { allowed := false
        reason := "Storage critically full (" ++ toFixed quotaInfo.percentUsed 1
          ++ "%). Delete old data before saving."
        quotaInfo := some quotaInfo }
    else if 0 < estimatedSize then
      let projectedUsage := quotaInfo.usage + estimatedSize
      let projectedPercent : ℚ := ((projectedUsage : ℚ) / (quotaInfo.quota : ℚ)) * 100
      if projectedPercent ≥ 100 then
        { allowed := false
          reason := "Operation would exceed storage quota. Free up space before saving."
          quotaInfo := some quotaInfo }
      else
        { allowed := true
          reason := "Storage available"
          quotaInfo := some quotaInfo }
    else
      { allowed := true
        reason := "Storage available"
        quotaInfo := some quotaInfo }

/-- Embedding of `showStorageWarning(quotaInfo)`: returns the notification
message it would emit, or `none` when no warning is needed (`null` info or
`safe` level). -/
def showStorageWarning (quotaInfo? : Option QuotaInfo) : Option String :=
  match quotaInfo? with
  | none => none
  | some quotaInfo =>
    if quotaInfo.level = .safe then none
    else some (getStorageStatusMessage (some quotaInfo))

/-- Embedding of `monitorStorageQuota()`: re-checks the quota for the given
host outcome, shows a warning when the level is not safe, and returns the
quota info (first component) together with the emitted warning (second
component). -/
def monitorStorageQuota (host : HostStorage) : Option QuotaInfo × Option String :=
  match checkStorageQuota host with
  | some quotaInfo =>
    if quotaInfo.level ≠ .safe then
      (some quotaInfo, showStorageWarning (some quotaInfo))
    else
      (some quotaInfo, none)
  | none => (none, none)

/-- Outcome of `JSON.stringify` on a candidate record: either the serialized
string, or a serialization error (caught by `estimateObjectSize`). -/
inductive SerializationResult
  | ok (jsonString : String)
  | error
deriving DecidableEq, Repr

/-- Embedding of `estimateObjectSize(obj)`: twice the character length of the
serialized form (2 bytes per UTF-16 code unit), or 0 when serialization
throws. -/
def estimateObjectSize : SerializationResult → Nat
  | .ok jsonString => jsonString.length * 2
  | .error => 0

/-- Modelled from the spec (section 4.2): the four admission rules in order —
(1) quota info unavailable → allow; (2) level danger → deny;
(3) `estimatedBytes > 0` and `(used + estimatedBytes) / capacity ≥ 1.0` →
deny; (4) otherwise allow. Reference definition for claim C1 only. -/
def admitSpecAllowed (quotaInfo? : Option QuotaInfo) (estimatedBytes : Nat) : Bool :=
  match quotaInfo? with
  | none => true
  | some q =>
    if q.level = .danger then false
    else if 0 < estimatedBytes ∧ ((q.usage : ℚ) + (estimatedBytes : ℚ)) / (q.quota : ℚ) ≥ 1 then
      false
    else true

/-- Modelled from the spec (section 4.1): the host cannot report
usage/capacity — the API is unavailable, the estimate call fails, or the
reported capacity is 0. Reference predicate for claim C4 only. -/
def hostCannotReport : HostStorage → Bool
  | .unsupported => true
  | .throws => true
  | .reports _ quota? => quota?.getD 0 == 0

/-- Rank of a quota level in the order safe < warning < critical < danger. -/
def QuotaLevel.rank : QuotaLevel → Nat
  | .safe => 0
  | .warning => 1
  | .critical => 2
  | .danger => 3

end StorageMonitor

namespace StorageMonitor

/-- Characterization of `getQuotaLevel`: the four levels partition the
percentage line at 80, 90 and 95, each boundary belonging to the higher
level (the source tests with `>=`). -/
lemma getQuotaLevel_iff (p : ℚ) :
    (getQuotaLevel p = .safe ↔ p < 80) ∧
    (getQuotaLevel p = .warning ↔ 80 ≤ p ∧ p < 90) ∧
    (getQuotaLevel p = .critical ↔ 90 ≤ p ∧ p < 95) ∧
    (getQuotaLevel p = .danger ↔ 95 ≤ p) := by
  simp only [getQuotaLevel, QUOTA_THRESHOLDS, ge_iff_le]
  split_ifs with h1 h2 h3 <;> refine ⟨?_, ?_, ?_, ?_⟩ <;> simp [not_and, not_lt] <;>
    first
      | linarith
      | (intro h; linarith)
      | (constructor <;> linarith)

/-- The source's projected-percentage test `(usage + size) / quota * 100 >= 100`
agrees with the specification's ratio test `(used + estimatedBytes) / capacity ≥ 1`. -/
lemma projected_percent_iff (q : QuotaInfo) (s : Nat) :
    ((q.usage + s : Nat) : ℚ) / (q.quota : ℚ) * 100 ≥ 100 ↔
      ((q.usage : ℚ) + (s : ℚ)) / (q.quota : ℚ) ≥ 1 := by
  have hcast : ((q.usage + s : Nat) : ℚ) = (q.usage : ℚ) + (s : ℚ) := by push_cast; ring
  rw [hcast]
  constructor <;> intro h <;> linarith

/-- C1: for every quota state and requested size, the admission decision of
`canPerformStorageOperation` equals the specification's four-rule reference
definition `admitSpecAllowed` applied in order: allow when quota info is
unavailable, deny at danger level, deny when `estimatedBytes > 0` and
`(used + estimatedBytes) / capacity ≥ 1`, allow otherwise. -/
theorem canPerformStorageOperation_matches_admitSpec
    (quotaInfo? : Option QuotaInfo) (estimatedBytes : Nat) :
    (canPerformStorageOperation quotaInfo? estimatedBytes).allowed =
      admitSpecAllowed quotaInfo? estimatedBytes := by
  match quotaInfo? with
  | none => rfl
  | some q =>
    by_cases hd : q.level = .danger
    · simp [canPerformStorageOperation, admitSpecAllowed, hd]
    · by_cases hs : 0 < estimatedBytes
      · by_cases hr : ((q.usage : ℚ) + (estimatedBytes : ℚ)) / (q.quota : ℚ) ≥ 1
        · have hp := (projected_percent_iff q estimatedBytes).mpr hr
          simp [canPerformStorageOperation, admitSpecAllowed, hd, hs, hr, hp]
        · have hp := (projected_percent_iff q estimatedBytes).not.mpr hr
          simp [canPerformStorageOperation, admitSpecAllowed, hd, hs, hr, hp]
      · simp [canPerformStorageOperation, admitSpecAllowed, hd, hs]

/-- C2: for every quota state at danger level and every requested size
(including 0), `canPerformStorageOperation` denies the operation — the
denial at danger level does not depend on the requested size. -/
theorem canPerformStorageOperation_danger_denies
    (q : QuotaInfo) (estimatedBytes : Nat) (hd : q.level = .danger) :
    (canPerformStorageOperation (some q) estimatedBytes).allowed = false := by
  simp [canPerformStorageOperation, hd]

/-- Witness for C2: a concrete danger-level state is denied for a concrete
size (7 bytes). -/
theorem canPerformStorageOperation_danger_denies_witness :
    (⟨96, 100, 96, .danger, "0.00", "0.00"⟩ : QuotaInfo).level = .danger ∧
      (canPerformStorageOperation (some ⟨96, 100, 96, .danger, "0.00", "0.00"⟩) 7).allowed
        = false :=
  ⟨rfl, canPerformStorageOperation_danger_denies ⟨96, 100, 96, .danger, "0.00", "0.00"⟩ 7 rfl⟩

/-- C3: for every reported usage and nonzero capacity, `checkStorageQuota`
computes `percentUsed = usage / quota * 100` and classifies the level as
safe when the percentage is below 80, warning on `[80, 90)`, critical on
`[90, 95)` and danger at 95 or above — so the boundary values 80, 90 and
95 each fall into exactly one level. -/
theorem checkStorageQuota_percent_and_levels (usage quota : Nat) (hq : quota ≠ 0) :
    ∃ info, checkStorageQuota (.reports (some usage) (some quota)) = some info ∧
      info.percentUsed = (usage : ℚ) / (quota : ℚ) * 100 ∧
      (info.level = .safe ↔ info.percentUsed < 80) ∧
      (info.level = .warning ↔ 80 ≤ info.percentUsed ∧ info.percentUsed < 90) ∧
      (info.level = .critical ↔ 90 ≤ info.percentUsed ∧ info.percentUsed < 95) ∧
      (info.level = .danger ↔ 95 ≤ info.percentUsed) := by
  refine ⟨{ usage := usage, quota := quota,
            percentUsed := (usage : ℚ) / (quota : ℚ) * 100,
            level := getQuotaLevel ((usage : ℚ) / (quota : ℚ) * 100),
            usageMB := toFixed ((usage : ℚ) / (1024 * 1024)) 2,
            quotaMB := toFixed ((quota : ℚ) / (1024 * 1024)) 2 },
          ?_, rfl, ?_, ?_, ?_, ?_⟩
  · simp [checkStorageQuota, hq]
  · exact (getQuotaLevel_iff _).1
  · exact (getQuotaLevel_iff _).2.1
  · exact (getQuotaLevel_iff _).2.2.1
  · exact (getQuotaLevel_iff _).2.2.2

/-- Witness for C3: 90 of 100 bytes used — the boundary percentage 90 is
classified (as critical, per the characterizing equivalences). -/
theorem checkStorageQuota_percent_and_levels_witness :
    (100 : Nat) ≠ 0 ∧
      ∃ info, checkStorageQuota (.reports (some 90) (some 100)) = some info ∧
        info.percentUsed = (90 : ℚ) / (100 : ℚ) * 100 ∧
        (info.level = .safe ↔ info.percentUsed < 80) ∧
        (info.level = .warning ↔ 80 ≤ info.percentUsed ∧ info.percentUsed < 90) ∧
        (info.level = .critical ↔ 90 ≤ info.percentUsed ∧ info.percentUsed < 95) ∧
        (info.level = .danger ↔ 95 ≤ info.percentUsed) :=
  ⟨by decide, checkStorageQuota_percent_and_levels 90 100 (by decide)⟩

/-- C4: `checkStorageQuota` returns the unavailable result (`none`) exactly
when the host cannot report usage/capacity — the Storage API is missing,
the estimate call fails (the error is caught, not propagated: the function
is total), or the reported capacity coalesces to 0. -/
theorem checkStorageQuota_unavailable_iff (host : HostStorage) :
    checkStorageQuota host = none ↔ hostCannotReport host = true := by
  cases host with
  | unsupported => simp [checkStorageQuota, hostCannotReport]
  | throws => simp [checkStorageQuota, hostCannotReport]
  | reports usage? quota? =>
    by_cases h : quota?.getD 0 = 0 <;> simp [checkStorageQuota, hostCannotReport, h]

/-- C5: for every record that serializes successfully, the estimated size
used for admission equals the length of the serialized JSON string times
2 bytes per character. -/
theorem estimateObjectSize_serialized_length (jsonString : String) :
    estimateObjectSize (.ok jsonString) = jsonString.length * 2 := rfl

/-- C6: the post-write quota re-check is swallowed on failure: for every
host outcome `monitorStorageQuota` returns normally with the value of
`checkStorageQuota` (modelled as a total function — the source's
`try/catch` means no exception escapes), and on an unavailable or failing
host it returns the unavailable result with no warning, so it cannot turn
a successful write into a reported failure. -/
theorem monitorStorageQuota_returns_and_swallows :
    (∀ host, (monitorStorageQuota host).1 = checkStorageQuota host) ∧
      monitorStorageQuota .throws = (none, none) ∧
      monitorStorageQuota .unsupported = (none, none) := by
  refine ⟨?_, rfl, rfl⟩
  intro host
  rcases hc : checkStorageQuota host with _ | q
  · simp [monitorStorageQuota, hc]
  · by_cases h : q.level = .safe <;> simp [monitorStorageQuota, hc, h]

/-- Counterexample to C7: the module does format user-facing text itself —
`getStorageStatusMessage` returns a human-readable message, and the record
returned by `checkStorageQuota` already contains the preformatted megabyte
string "1.00" rather than only the raw tuple. -/
theorem getStorageStatusMessage_formats_text :
    getStorageStatusMessage none = "Storage usage information not available" ∧
      (checkStorageQuota (.reports (some 1048576) (some 2097152))).map QuotaInfo.usageMB
        = some "1.00" := by
  constructor
  · rfl
  · have h : ⌊((1048576 : Nat) : ℚ) / (1024 * 1024) * 10 ^ 2 + 1 / 2⌋ = 100 := by
      push_cast
      norm_num
    simp only [checkStorageQuota, Option.getD_some, toFixed, h]
    rfl

/-- C7 (amended): `checkStorageQuota` does expose the raw usage, capacity,
percentage and level fields to consumers, but alongside the preformatted
`usageMB`/`quotaMB` strings — and the module itself also formats
user-facing text (`getStorageStatusMessage`). -/
theorem checkStorageQuota_exposes_raw_tuple (usage quota : Nat) (hq : quota ≠ 0) :
    checkStorageQuota (.reports (some usage) (some quota)) =
      some { usage := usage, quota := quota,
             percentUsed := (usage : ℚ) / (quota : ℚ) * 100,
             level := getQuotaLevel ((usage : ℚ) / (quota : ℚ) * 100),
             usageMB := toFixed ((usage : ℚ) / (1024 * 1024)) 2,
             quotaMB := toFixed ((quota : ℚ) / (1024 * 1024)) 2 } := by
  simp [checkStorageQuota, hq]

/-- Witness for the amended C7: the raw fields exposed for 1 of 2 bytes used. -/
theorem checkStorageQuota_exposes_raw_tuple_witness :
    (2 : Nat) ≠ 0 ∧
      checkStorageQuota (.reports (some 1) (some 2)) =
        some { usage := 1, quota := 2,
               percentUsed := (1 : ℚ) / (2 : ℚ) * 100,
               level := getQuotaLevel ((1 : ℚ) / (2 : ℚ) * 100),
               usageMB := toFixed ((1 : ℚ) / (1024 * 1024)) 2,
               quotaMB := toFixed ((2 : ℚ) / (1024 * 1024)) 2 } :=
  ⟨by decide, checkStorageQuota_exposes_raw_tuple 1 2 (by decide)⟩

/-- C8: `getQuotaLevel` is total — every percentage maps to exactly one
level — and monotone: a smaller percentage never maps to a higher level
in the order safe < warning < critical < danger (compared via `rank`). -/
theorem getQuotaLevel_total_monotone :
    (∀ p : ℚ, ∃! level, getQuotaLevel p = level) ∧
      ∀ p1 p2 : ℚ, p1 ≤ p2 → (getQuotaLevel p1).rank ≤ (getQuotaLevel p2).rank := by
  constructor
  · exact fun p => ⟨getQuotaLevel p, rfl, fun y h => h.symm⟩
  · intro p1 p2 h
    simp only [getQuotaLevel, QUOTA_THRESHOLDS, ge_iff_le]
    split_ifs <;> simp [QuotaLevel.rank] <;> linarith

/-- Witness for C8: monotonicity instantiated at 1 ≤ 99. -/
theorem getQuotaLevel_total_monotone_witness :
    (1 : ℚ) ≤ 99 ∧ (getQuotaLevel 1).rank ≤ (getQuotaLevel 99).rank :=
  ⟨by norm_num, getQuotaLevel_total_monotone.2 1 99 (by norm_num)⟩

/-- C9: when serialization fails `estimateObjectSize` returns 0, and since
`canPerformStorageOperation` skips the over-quota projection when the
estimated size is 0, such a write is admitted whenever the current level
is below danger, regardless of its true size. -/
theorem estimateObjectSize_error_admitted :
    estimateObjectSize .error = 0 ∧
      ∀ q : QuotaInfo, q.level ≠ .danger →
        (canPerformStorageOperation (some q) (estimateObjectSize .error)).allowed = true := by
  refine ⟨rfl, fun q hq => ?_⟩
  simp [canPerformStorageOperation, estimateObjectSize, hq]

/-- Witness for C9: a critical-level state (99% used) still admits a write
whose size estimation failed. -/
theorem estimateObjectSize_error_admitted_witness :
    (⟨99, 100, 99, .critical, "0.00", "0.00"⟩ : QuotaInfo).level ≠ .danger ∧
      (canPerformStorageOperation (some ⟨99, 100, 99, .critical, "0.00", "0.00"⟩)
        (estimateObjectSize .error)).allowed = true :=
  ⟨by decide, estimateObjectSize_error_admitted.2 _ (by decide)⟩

/-- Characterization of admission for a present quota state: allowed exactly
when the level is not danger and any positive requested size keeps the
projected usage ratio below 1. -/
lemma canPerformStorageOperation_allowed_iff (q : QuotaInfo) (s : Nat) :
    (canPerformStorageOperation (some q) s).allowed = true ↔
      q.level ≠ .danger ∧
        (0 < s → ((q.usage : ℚ) + (s : ℚ)) / (q.quota : ℚ) < 1) := by
  by_cases hd : q.level = .danger
  · simp [canPerformStorageOperation, hd]
  · by_cases hs : 0 < s
    · by_cases hp : 1 ≤ ((q.usage : ℚ) + (s : ℚ)) / (q.quota : ℚ)
      · simp [canPerformStorageOperation, hd, hs, hp, not_lt.mpr hp]
      · simp [canPerformStorageOperation, hd, hs, hp, lt_of_not_ge hp]
    · simp [canPerformStorageOperation, hd, hs]

/-- C10: admission is antitone in the requested size — for a fixed quota
state, if a size is admitted then every smaller (or equal) size is
admitted as well. -/
theorem canPerformStorageOperation_antitone
    (q : QuotaInfo) (s s' : Nat) (hle : s' ≤ s)
    (h : (canPerformStorageOperation (some q) s).allowed = true) :
    (canPerformStorageOperation (some q) s').allowed = true := by
  rw [canPerformStorageOperation_allowed_iff] at h ⊢
  obtain ⟨hd, hbound⟩ := h
  refine ⟨hd, fun hs' => ?_⟩
  have hb := hbound (lt_of_lt_of_le hs' hle)
  rcases Nat.eq_zero_or_pos q.quota with hq | hq
  · simp [hq]
  · have hcpos : (0 : ℚ) < (q.quota : ℚ) := by exact_mod_cast hq
    have hnum : ((q.usage : ℚ) + (s' : ℚ)) ≤ ((q.usage : ℚ) + (s : ℚ)) := by
      have : ((s' : ℚ)) ≤ (s : ℚ) := by exact_mod_cast hle
      linarith
    have hdiv := (div_le_div_iff_of_pos_right hcpos).mpr hnum
    linarith

/-- Witness for C10: with 10 of 100 bytes used, a 10-byte write is admitted,
hence so is a 5-byte write. -/
theorem canPerformStorageOperation_antitone_witness :
    (5 : Nat) ≤ 10 ∧
      (canPerformStorageOperation (some ⟨10, 100, 10, .safe, "0.00", "0.00"⟩) 10).allowed
        = true ∧
      (canPerformStorageOperation (some ⟨10, 100, 10, .safe, "0.00", "0.00"⟩) 5).allowed
        = true := by
  have h10 : (canPerformStorageOperation
      (some ⟨10, 100, 10, .safe, "0.00", "0.00"⟩) 10).allowed = true :=
    (canPerformStorageOperation_allowed_iff _ 10).mpr ⟨by decide, fun _ => by norm_num⟩
  exact ⟨by norm_num,
    h10, canPerformStorageOperation_antitone _ 10 5 (by norm_num) h10⟩

end StorageMonitor
